import Mathlib

/-!
Verification of the CoinSniper trading core against its specification.

The embedding below translates the monitoring / decision / queueing code of
`src/unnamed/part_004` (class `MemecoinSniper`) and
`src/src/core/tokenAnalyzer.js` (class `TokenAnalyzer`) into Lean.

Modelling conventions:
* JavaScript numbers are modelled as rationals (`ℚ`); the claims are about
  exact algebraic relationships, not floating-point rounding.
* The external execution gateway (`executor.executeSell`) is modelled by an
  oracle `sellOk : ℕ → Bool` consumed in program order: the n-th sell attempt
  of a run succeeds iff `sellOk n = true`.  Each function threads the attempt
  counter `k` and also returns the trace of attempted sell amounts, so that
  "a sell was issued" is a statable event.
* Logging (`logger.*`) and notification (`notificationManager.*`) calls have
  no effect on trading state and are omitted.
-/

namespace CoinSniper

/-- One profit target, as stored in `this.profitTargets` by `setProfitTargets`
(`{ percentage, size }`).  The source creates targets without a `hit` field
(JavaScript `undefined`, which is falsy in `!target.hit`); this is modelled as
`hit := false` at creation. -/
structure Target where
  percentage : ℚ
  size : ℚ
  hit : Bool
deriving Repr, DecidableEq

/-- The mutable per-trade fields read and written by the monitoring functions
(the `trade` object stored in `this.activeTrades`). -/
structure Trade where
  entryPrice : ℚ
  positionSize : ℚ
deriving Repr, DecidableEq

/-- Result of one pass of `checkProfitTargets`: final oracle index, updated
trade, updated target list, and the trace of attempted sell amounts. -/
structure TargetsResult where
  k : ℕ
  trade : Trade
  targets : List Target
  sells : List ℚ
deriving Repr, DecidableEq

/-- `executePartialSell(tradeHash, trade, percentage)`: computes
`sellAmount = trade.positionSize * percentage`, issues the sell, and on
`sellTrade.success` performs `trade.positionSize -= sellAmount`; a failed sell
leaves the trade unchanged (the error is only logged).  Returns the updated
trade and the attempted sell amount. -/
def executePartialSell (trade : Trade) (percentage : ℚ) (success : Bool) :
    Trade × ℚ :=
  let sellAmount := trade.positionSize * percentage
  (if success then
    { trade with positionSize := trade.positionSize - sellAmount }
   else trade, sellAmount)

/-- `checkProfitTargets(tradeHash, trade, currentPrice, currentProfit)`:
iterates over the stored targets in order; for each target with
`currentProfit >= target.percentage && !target.hit` it awaits
`executePartialSell` and then sets `target.hit = true` unconditionally
(the flag is assigned after the call returns, whether or not the sell
succeeded). -/
def checkProfitTargets (sellOk : ℕ → Bool) :
    ℕ → Trade → ℚ → List Target → TargetsResult
  | k, trade, _, [] => ⟨k, trade, [], []⟩
  | k, trade, currentProfit, t :: ts =>
    if t.percentage ≤ currentProfit ∧ t.hit = false then
      let step := executePartialSell trade t.size (sellOk k)
      let r := checkProfitTargets sellOk (k + 1) step.1 currentProfit ts
      ⟨r.k, r.trade, { t with hit := true } :: r.targets, step.2 :: r.sells⟩
    else
      let r := checkProfitTargets sellOk k trade currentProfit ts
      ⟨r.k, r.trade, t :: r.targets, r.sells⟩

/-- `executeStopLoss(tradeHash, trade)`: sells the whole remaining
`trade.positionSize`; on success calls `closeTrade(tradeHash)` (the position is
deleted from `activeTrades`, modelled by `none`); on failure the trade stays
registered unchanged.  Also returns the attempted sell amount. -/
def executeStopLoss (trade : Trade) (success : Bool) : Option Trade × ℚ :=
  (if success then none else some trade, trade.positionSize)

/-- Result of `checkStopLoss`: oracle index, surviving trade (or `none` when
the position was closed), and the trace of attempted sell amounts. -/
structure StopResult where
  k : ℕ
  trade : Option Trade
  sells : List ℚ
deriving Repr, DecidableEq

/-- `checkStopLoss(tradeHash, trade, currentPrice, currentProfit)`: if
`currentPrice <= stopLoss` (the stored stop price for this trade), run
`executeStopLoss`; otherwise do nothing. -/
def checkStopLoss (sellOk : ℕ → Bool) (k : ℕ) (trade : Trade)
    (stopLoss currentPrice : ℚ) : StopResult :=
  if currentPrice ≤ stopLoss then
    let e := executeStopLoss trade (sellOk k)
    ⟨k + 1, e.1, [e.2]⟩
  else ⟨k, some trade, []⟩

/-- One monitored position: the `activeTrades` entry together with its
hash-keyed companions `this.profitTargets.get(hash)` and
`this.stopLosses.get(hash)` (all three maps are keyed by the same trade hash,
written together by `setProfitTargets` and deleted together by `closeTrade`),
plus the `timestamp` recorded at entry. -/
structure Position where
  trade : Trade
  targets : List Target
  stopLoss : ℚ
  openedAt : ℕ
deriving Repr, DecidableEq

/-- Result of one `monitorTrade` tick on a single position. -/
structure MonitorResult where
  k : ℕ
  position : Option Position
  sells : List ℚ
deriving Repr, DecidableEq

/-- `currentProfit = ((currentPrice - entryPrice) / entryPrice) * 100`. -/
def currentProfitOf (entryPrice currentPrice : ℚ) : ℚ :=
  (currentPrice - entryPrice) / entryPrice * 100

/-- One `monitorTrade(tradeHash, trade)` tick: fetch the current price
(passed in as `currentPrice`), compute `currentProfit`, run
`checkProfitTargets`, then `checkStopLoss`.  `now` is the wall-clock time at
which the tick runs; the body of `monitorTrade` never reads a clock, so `now`
and `openedAt` influence nothing. -/
def monitorTrade (sellOk : ℕ → Bool) (k now : ℕ) (currentPrice : ℚ)
    (p : Position) : MonitorResult :=
  let currentProfit := currentProfitOf p.trade.entryPrice currentPrice
  let r := checkProfitTargets sellOk k p.trade currentProfit p.targets
  let s := checkStopLoss sellOk r.k r.trade p.stopLoss currentPrice
  match s.trade with
  | none => ⟨s.k, none, r.sells ++ s.sells⟩
  | some tr =>
    ⟨s.k, some { p with trade := tr, targets := r.targets }, r.sells ++ s.sells⟩

/-- One round of the `startTradeMonitoring` interval: iterate over all entries
of `activeTrades` and run `monitorTrade` on each; positions closed by
`closeTrade` are no longer in the map afterwards.  `oracles h` is the sell
oracle for the trade with hash `h` and `priceOf h` the fetched price of its
token. -/
def monitorAll (oracles : ℕ → ℕ → Bool) (now : ℕ) (priceOf : ℕ → ℚ)
    (trades : List (ℕ × Position)) : List (ℕ × Position) :=
  trades.filterMap fun hp =>
    match (monitorTrade (oracles hp.1) 0 now (priceOf hp.1) hp.2).position with
    | some q => some (hp.1, q)
    | none => none

/-- `setProfitTargets(tradeHash, entryPrice, profitPotential)`: installs the
three-rung ladder `[{50, 0.3}, {100, 0.3}, {profitPotential * 0.7, 0.4}]` and
the stop price `entryPrice * (1 - stopLossPercent / 100)` where
`stopLossPercent = this.config.trading.stopLoss`. -/
def setProfitTargets (entryPrice profitPotential stopLossPercent : ℚ) :
    List Target × ℚ :=
  ([⟨50, 3/10, false⟩, ⟨100, 3/10, false⟩,
    ⟨profitPotential * (7/10), 4/10, false⟩],
   entryPrice * (1 - stopLossPercent / 100))

/-- The fields of the detailed-analysis object read by
`makeTradingDecision` (the full object has more fields; only these are
consulted by the embedded functions). -/
structure Analysis where
  isVerified : Bool
  isAudited : Bool
  liquidity : ℚ
deriving Repr, DecidableEq

/-- The sentiment-analysis result read by `makeTradingDecision`. -/
structure SentimentResult where
  score : ℚ
deriving Repr, DecidableEq

/-- `makeTradingDecision(analysis, sentiment, riskScore, profitPotential)`:
the five sequential rejection guards of the source, in order; `minLiquidity`
is `this.config.trading.minLiquidity`. -/
def makeTradingDecision (minLiquidity : ℚ) (analysis : Analysis)
    (sentiment : SentimentResult) (riskScore profitPotential : ℚ) : Bool :=
  if 70 < riskScore then false
  else if profitPotential < 200 then false
  else if sentiment.score < 60 then false
  else if analysis.isVerified = false ∧ analysis.isAudited = false then false
  else if analysis.liquidity < minLiquidity then false
  else true

/-- `calculatePositionSize(profitPotential, risk)`: starts from
`baseSize = this.config.trading.minBuyAmount`, applies the four tier
multipliers, and returns `Math.min(size, maxSize)` where
`maxSize = this.config.trading.maxBuyAmount`. -/
def calculatePositionSize (baseSize maxSize profitPotential risk : ℚ) : ℚ :=
  let size := baseSize
  let size := if 500 < profitPotential then size * (3/2) else size
  let size := if 1000 < profitPotential then size * 2 else size
  let size := if risk < 30 then size * (6/5) else size
  let size := if 50 < risk then size * (4/5) else size
  min size maxSize

/-- An entry of `this.tokenQueue` as pushed by `analyzeAndQueueToken`:
`{ token, network, timestamp, initialScore }` (the token itself carries the
address). -/
structure QueueEntry where
  tokenAddress : ℕ
  network : ℕ
  timestamp : ℕ
  initialScore : ℚ
deriving Repr, DecidableEq

/-- The duplicate guard of `analyzeAndQueueToken` is
`this.tokenQueue.some(t => t.address === token.address)`.  Queue entries are
`{token, network, timestamp, initialScore}` objects with no `address` field,
so `t.address` is `undefined` and the strict comparison with the candidate's
address string is `false` for every entry: the guard never fires. -/
def queueDuplicate (queue : List QueueEntry) : Bool :=
  queue.any fun _ => false

/-- `analyzeAndQueueToken(token, network)` after `performQuickAnalysis`
returned `{isPromising, score}`: if the duplicate guard fires, return; if
promising, push the entry onto `tokenQueue` (unconditionally — there is no
capacity check before the push) and then trigger `processTokenQueue()` only
when `tokenQueue.length <= maxConcurrentTrades`.  Returns the new queue and
whether processing was triggered. -/
def analyzeAndQueueToken (maxConcurrentTrades : ℕ) (queue : List QueueEntry)
    (entry : QueueEntry) (isPromising : Bool) : List QueueEntry × Bool :=
  if queueDuplicate queue then (queue, false)
  else if isPromising then
    let queue1 := queue ++ [entry]
    (queue1, decide (queue1.length ≤ maxConcurrentTrades))
  else (queue, false)

/-- `TokenAnalyzer.calculateProfitPotential(analysis)`: baseline 200, scaled
by the four tier multipliers and rounded with `Math.round`
(round half towards positive infinity, i.e. `⌊x + 1/2⌋`, which is Mathlib's
`round` on `ℚ`).  At the call site `analysis.score` and `analysis.risk` are
the numeric results of `calculateAnalysisScore` / `calculateRiskScore` and
`analysis.social.score` the social sub-score. -/
def calculateProfitPotential (score socialScore risk : ℚ) : ℤ :=
  let potential : ℚ := 200
  let potential := if 80 < score then potential * 2 else potential
  let potential := if 90 < score then potential * (3/2) else potential
  let potential := if 80 < socialScore then potential * (13/10) else potential
  let potential := if risk < 20 then potential * (6/5) else potential
  round potential

/-! ## General lemmas about the target-scan pass -/

/-- Scanning a concatenated target list is the scan of the first part followed
by the scan of the second, threading the trade state and the sell-attempt
counter, with the target and sell traces concatenated. -/
theorem checkProfitTargets_append (sellOk : ℕ → Bool) (profit : ℚ) :
    ∀ (xs ys : List Target) (k : ℕ) (trade : Trade),
    checkProfitTargets sellOk k trade profit (xs ++ ys) =
      (let r := checkProfitTargets sellOk k trade profit xs
       let s := checkProfitTargets sellOk r.k r.trade profit ys
       ⟨s.k, s.trade, r.targets ++ s.targets, r.sells ++ s.sells⟩) := by
  intro xs
  induction xs with
  | nil =>
    intro ys k trade
    simp [checkProfitTargets]
  | cons u us ih =>
    intro ys k trade
    by_cases hc : u.percentage ≤ profit ∧ u.hit = false
    · simp [checkProfitTargets, if_pos hc, ih, List.cons_append]
    · simp [checkProfitTargets, if_neg hc, ih, List.cons_append]

/-- A target whose `hit` flag is set is skipped by the scan: no sell is
attempted for it, the oracle counter does not advance past it, and the target
is reproduced unchanged. -/
theorem checkProfitTargets_skip_hit (sellOk : ℕ → Bool) (profit : ℚ)
    (t : Target) (ht : t.hit = true) (k : ℕ) (trade : Trade)
    (ts : List Target) :
    checkProfitTargets sellOk k trade profit (t :: ts) =
      (let r := checkProfitTargets sellOk k trade profit ts
       ⟨r.k, r.trade, t :: r.targets, r.sells⟩) := by
  simp [checkProfitTargets, ht]

/-! ## Claim C1 -/

/-- Claim C1, counterexample.  With an execution oracle on which every sell
fails, a rung whose threshold is met (gain 51 % against a 50 % threshold)
still ends the tick with `hit = true` — the flag is assigned after
`executePartialSell` returns, regardless of success — while the position size
is unchanged (`1`), witnessing that the sell indeed had no effect.  The claim
states that a failed sell leaves `hit` false; the code does not. -/
theorem c1_failed_sell_still_marks_hit :
    (checkProfitTargets (fun _ => false) 0 ⟨100, 1⟩ 51
        [⟨50, 3/10, false⟩]).targets.map Target.hit = [true] ∧
    (checkProfitTargets (fun _ => false) 0 ⟨100, 1⟩ 51
        [⟨50, 3/10, false⟩]).trade = ⟨100, 1⟩ := by
  constructor <;> norm_num [checkProfitTargets, executePartialSell]

/-- Claim C1, amended: when a rung's threshold is met and the partial sell
fails, the rung's `hit` flag is nevertheless set to `true` and the trade is
left unchanged; consequently the rung is NOT retried on the next monitoring
tick — a replayed tick attempts no sell for it. -/
theorem c1_amended_failed_sell_not_retried (sellOk : ℕ → Bool) (k : ℕ)
    (trade : Trade) (profit : ℚ) (t : Target)
    (hfire : t.percentage ≤ profit) (hnot : t.hit = false)
    (hfail : sellOk k = false) :
    checkProfitTargets sellOk k trade profit [t] =
      ⟨k + 1, trade, [{ t with hit := true }], [trade.positionSize * t.size]⟩ ∧
    checkProfitTargets sellOk (k + 1) trade profit [{ t with hit := true }] =
      ⟨k + 1, trade, [{ t with hit := true }], []⟩ := by
  constructor <;>
    simp [checkProfitTargets, executePartialSell, hfire, hnot, hfail]

/-- Witness for `c1_amended_failed_sell_not_retried` at the Scenario D rung
(50 % threshold, release 0.3, entry 100, gain 51 %, failing gateway). -/
theorem c1_amended_witness :
    (50 : ℚ) ≤ 51 ∧ (⟨50, 3/10, false⟩ : Target).hit = false ∧
    (fun _ : ℕ => false) 0 = false ∧
    (checkProfitTargets (fun _ => false) 0 ⟨100, 1⟩ 51 [⟨50, 3/10, false⟩] =
      ⟨0 + 1, ⟨100, 1⟩, [{ (⟨50, 3/10, false⟩ : Target) with hit := true }],
       [(⟨100, 1⟩ : Trade).positionSize * (⟨50, 3/10, false⟩ : Target).size]⟩ ∧
     checkProfitTargets (fun _ => false) (0 + 1) ⟨100, 1⟩ 51
        [{ (⟨50, 3/10, false⟩ : Target) with hit := true }] =
      ⟨0 + 1, ⟨100, 1⟩, [{ (⟨50, 3/10, false⟩ : Target) with hit := true }],
       []⟩) :=
  ⟨by norm_num, rfl, rfl,
   c1_amended_failed_sell_not_retried (fun _ => false) 0 ⟨100, 1⟩ 51
     ⟨50, 3/10, false⟩ (by norm_num) rfl rfl⟩

/-! ## Claim C2 -/

/-- Claim C2: a rung whose `hit` flag is `true` never refires.  Placed
anywhere in the ladder, at any current profit (in particular at or above its
threshold), a monitoring tick reproduces it unchanged, attempts no sell for it
and does not advance the sell-attempt counter across it: the tick is exactly
the scan of the surrounding rungs. -/
theorem c2_hit_rung_never_refires (sellOk : ℕ → Bool) (k : ℕ) (trade : Trade)
    (profit : ℚ) (ts₁ ts₂ : List Target) (t : Target) (r₁ r₂ : TargetsResult)
    (ht : t.hit = true)
    (h₁ : checkProfitTargets sellOk k trade profit ts₁ = r₁)
    (h₂ : checkProfitTargets sellOk r₁.k r₁.trade profit ts₂ = r₂) :
    checkProfitTargets sellOk k trade profit (ts₁ ++ t :: ts₂) =
      ⟨r₂.k, r₂.trade, r₁.targets ++ t :: r₂.targets, r₁.sells ++ r₂.sells⟩ := by
  rw [checkProfitTargets_append]
  simp only [h₁, checkProfitTargets_skip_hit sellOk profit t ht, h₂]

/-- Witness for `c2_hit_rung_never_refires`: the Scenario D replayed tick.
After the 50 % rung fired (hit, remaining 0.7), a tick at price 152 (52 %
gain) leaves the ladder and the trade unchanged and issues no sell. -/
theorem c2_witness :
    checkProfitTargets (fun _ => true) 0 ⟨100, 7/10⟩ 52
        ([] ++ ⟨50, 3/10, true⟩ ::
          [⟨100, 3/10, false⟩, ⟨420, 2/5, false⟩]) =
      ⟨(⟨0, ⟨100, 7/10⟩, [⟨100, 3/10, false⟩, ⟨420, 2/5, false⟩],
          []⟩ : TargetsResult).k,
       (⟨0, ⟨100, 7/10⟩, [⟨100, 3/10, false⟩, ⟨420, 2/5, false⟩],
          []⟩ : TargetsResult).trade,
       (⟨0, ⟨100, 7/10⟩, [], []⟩ : TargetsResult).targets ++
         ⟨50, 3/10, true⟩ ::
           (⟨0, ⟨100, 7/10⟩, [⟨100, 3/10, false⟩, ⟨420, 2/5, false⟩],
              []⟩ : TargetsResult).targets,
       (⟨0, ⟨100, 7/10⟩, [], []⟩ : TargetsResult).sells ++
         (⟨0, ⟨100, 7/10⟩, [⟨100, 3/10, false⟩, ⟨420, 2/5, false⟩],
            []⟩ : TargetsResult).sells⟩ :=
  c2_hit_rung_never_refires (fun _ => true) 0 ⟨100, 7/10⟩ 52 []
    [⟨100, 3/10, false⟩, ⟨420, 2/5, false⟩] ⟨50, 3/10, true⟩
    ⟨0, ⟨100, 7/10⟩, [], []⟩
    ⟨0, ⟨100, 7/10⟩, [⟨100, 3/10, false⟩, ⟨420, 2/5, false⟩], []⟩
    rfl rfl (by norm_num [checkProfitTargets])

/-! ## Claim C3 -/

/-- Claim C3, counterexample.  Scenario D ladder `[(50,0.3),(100,0.3),
(140,0.4)]` (releases sum to 1) on a fresh position of size 1, tick at 200 %
gain with every sell succeeding: the issued sell amounts are
`[0.3, 0.21, 0.196]` — each rung sells its fraction of the CURRENT remaining
size, not of the original — and the remaining size is `0.294`, not `0`.  The
second sell is not `0.3 × original = 0.3`. -/
theorem c3_sells_fraction_of_current_not_original :
    (checkProfitTargets (fun _ => true) 0 ⟨100, 1⟩ 200
        [⟨50, 3/10, false⟩, ⟨100, 3/10, false⟩, ⟨140, 2/5, false⟩]).sells =
      [3/10, 21/100, 49/250] ∧
    (checkProfitTargets (fun _ => true) 0 ⟨100, 1⟩ 200
        [⟨50, 3/10, false⟩, ⟨100, 3/10, false⟩, ⟨140, 2/5, false⟩]).trade.positionSize =
      147/500 ∧
    (3/10 + 3/10 + 2/5 : ℚ) = 1 ∧
    (21/100 : ℚ) ≠ 3/10 * 1 ∧
    (147/500 : ℚ) ≠ 0 := by
  refine ⟨?_, ?_, by norm_num, by norm_num, by norm_num⟩ <;>
    norm_num [checkProfitTargets, executePartialSell]

/-- Claim C3, amended: a rung that fires with a successful sell sells
`releaseFraction × current remaining size` (so on a fresh position the first
0.3 rung does leave exactly 0.7 of the original), and the remaining size is
scaled by `(1 - releaseFraction)`; fractions of later rungs therefore compound
on the remainder rather than drawing on the original size. -/
theorem c3_amended_rung_sells_fraction_of_current (sellOk : ℕ → Bool) (k : ℕ)
    (trade : Trade) (profit : ℚ) (t : Target)
    (hfire : t.percentage ≤ profit) (hnot : t.hit = false)
    (hok : sellOk k = true) :
    checkProfitTargets sellOk k trade profit [t] =
      ⟨k + 1,
       { trade with
          positionSize := trade.positionSize - trade.positionSize * t.size },
       [{ t with hit := true }], [trade.positionSize * t.size]⟩ := by
  simp [checkProfitTargets, executePartialSell, hfire, hnot, hok]

/-- Witness for `c3_amended_rung_sells_fraction_of_current`: the fresh
Scenario D position (size 1) firing the 0.3 rung at 51 % gain leaves size
`1 - 1 × 0.3 = 0.7`. -/
theorem c3_amended_witness :
    (50 : ℚ) ≤ 51 ∧ (⟨50, 3/10, false⟩ : Target).hit = false ∧
    (fun _ : ℕ => true) 0 = true ∧
    checkProfitTargets (fun _ => true) 0 ⟨100, 1⟩ 51 [⟨50, 3/10, false⟩] =
      ⟨0 + 1,
       { (⟨100, 1⟩ : Trade) with
          positionSize := (⟨100, 1⟩ : Trade).positionSize -
            (⟨100, 1⟩ : Trade).positionSize * (⟨50, 3/10, false⟩ : Target).size },
       [{ (⟨50, 3/10, false⟩ : Target) with hit := true }],
       [(⟨100, 1⟩ : Trade).positionSize * (⟨50, 3/10, false⟩ : Target).size]⟩ :=
  ⟨by norm_num, rfl, rfl,
   c3_amended_rung_sells_fraction_of_current (fun _ => true) 0 ⟨100, 1⟩ 51
     ⟨50, 3/10, false⟩ (by norm_num) rfl rfl⟩

/-! ## Claim C4 -/

/-- In a list of hash-keyed positions with no duplicate hashes (the
`activeTrades` map), the position stored under a hash is unique. -/
theorem position_unique_of_keys_nodup :
    ∀ {l : List (ℕ × Position)}, (l.map Prod.fst).Nodup →
    ∀ {h : ℕ} {p q : Position}, (h, p) ∈ l → (h, q) ∈ l → p = q := by
  intro l
  induction l with
  | nil =>
    intro _ h p q hp
    cases hp
  | cons a l ih =>
    intro hnd h p q hp hq
    rw [List.map_cons, List.nodup_cons] at hnd
    rcases List.mem_cons.mp hp with hp' | hp'
    · rcases List.mem_cons.mp hq with hq' | hq'
      · rw [← hp'] at hq'
        exact congrArg Prod.snd hq'.symm
      · exfalso
        apply hnd.1
        rw [← hp']
        simpa using List.mem_map_of_mem Prod.fst hq'
    · rcases List.mem_cons.mp hq with hq' | hq'
      · exfalso
        apply hnd.1
        rw [← hq']
        simpa using List.mem_map_of_mem Prod.fst hp'
      · exact ih hnd.2 hp' hq'

/-- Claim C4: on a tick whose fetched price is at or below the stored stop
price, and whose stop-loss sell succeeds, `monitorTrade` issues a liquidation
of the entire remaining position size (after any partial sells of the same
tick) and closes the position (`closeTrade`); the monitoring round
`monitorAll` then no longer carries the trade's hash, so no further tick
evaluates it. -/
theorem c4_stop_loss_closes_and_removes (oracles : ℕ → ℕ → Bool) (now : ℕ)
    (priceOf : ℕ → ℚ) (trades : List (ℕ × Position)) (h : ℕ) (p : Position)
    (r : TargetsResult)
    (hnd : (trades.map Prod.fst).Nodup)
    (hmem : (h, p) ∈ trades)
    (hr : checkProfitTargets (oracles h) 0 p.trade
        (currentProfitOf p.trade.entryPrice (priceOf h)) p.targets = r)
    (hstop : priceOf h ≤ p.stopLoss)
    (hsell : oracles h r.k = true) :
    monitorTrade (oracles h) 0 now (priceOf h) p =
      ⟨r.k + 1, none, r.sells ++ [r.trade.positionSize]⟩ ∧
    h ∉ (monitorAll oracles now priceOf trades).map Prod.fst := by
  have hmon : monitorTrade (oracles h) 0 now (priceOf h) p =
      ⟨r.k + 1, none, r.sells ++ [r.trade.positionSize]⟩ := by
    simp [monitorTrade, checkStopLoss, executeStopLoss, hr, hstop, hsell]
  refine ⟨hmon, ?_⟩
  intro hmem'
  simp only [monitorAll, List.mem_map, List.mem_filterMap] at hmem'
  obtain ⟨⟨h₂, q⟩, ⟨⟨h₃, p₃⟩, hin, hmatch⟩, hfst⟩ := hmem'
  cases hpos : (monitorTrade (oracles h₃) 0 now (priceOf h₃) p₃).position with
  | none =>
    rw [hpos] at hmatch
    cases hmatch
  | some q' =>
    rw [hpos] at hmatch
    have hh₃ : h₃ = h := by
      have := (Option.some_inj.mp hmatch)
      have : h₃ = h₂ := congrArg Prod.fst this
      simp only at hfst
      rw [this, hfst]
    rw [hh₃] at hin hpos
    have hp₃ : p₃ = p := position_unique_of_keys_nodup hnd hin hmem
    rw [hp₃, hmon] at hpos
    cases hpos

/-- Witness for `c4_stop_loss_closes_and_removes`: Scenario E.  A position
with entry 100, full size 1, stop price 70, registered under hash 0; the
price drops to 65, no profit rung fires, the stop-loss sell succeeds: the
tick sells the whole remaining size 1, returns `none`, and hash 0 is gone
from the monitoring round. -/
theorem c4_witness :
    monitorTrade ((fun _ _ => true) 0) 0 0 ((fun _ : ℕ => (65 : ℚ)) 0)
        ⟨⟨100, 1⟩, [⟨50, 3/10, false⟩, ⟨100, 3/10, false⟩, ⟨420, 2/5, false⟩],
         70, 0⟩ =
      ⟨(⟨0, ⟨100, 1⟩,
          [⟨50, 3/10, false⟩, ⟨100, 3/10, false⟩, ⟨420, 2/5, false⟩],
          []⟩ : TargetsResult).k + 1, none,
       (⟨0, ⟨100, 1⟩,
          [⟨50, 3/10, false⟩, ⟨100, 3/10, false⟩, ⟨420, 2/5, false⟩],
          []⟩ : TargetsResult).sells ++
         [(⟨0, ⟨100, 1⟩,
             [⟨50, 3/10, false⟩, ⟨100, 3/10, false⟩, ⟨420, 2/5, false⟩],
             []⟩ : TargetsResult).trade.positionSize]⟩ ∧
    0 ∉ (monitorAll (fun _ _ => true) 0 (fun _ => 65)
        [(0, ⟨⟨100, 1⟩,
            [⟨50, 3/10, false⟩, ⟨100, 3/10, false⟩, ⟨420, 2/5, false⟩],
            70, 0⟩)]).map Prod.fst :=
  c4_stop_loss_closes_and_removes (fun _ _ => true) 0 (fun _ => 65)
    [(0, ⟨⟨100, 1⟩,
        [⟨50, 3/10, false⟩, ⟨100, 3/10, false⟩, ⟨420, 2/5, false⟩], 70, 0⟩)]
    0
    ⟨⟨100, 1⟩, [⟨50, 3/10, false⟩, ⟨100, 3/10, false⟩, ⟨420, 2/5, false⟩],
     70, 0⟩
    ⟨0, ⟨100, 1⟩, [⟨50, 3/10, false⟩, ⟨100, 3/10, false⟩, ⟨420, 2/5, false⟩],
     []⟩
    (by simp) (by simp)
    (by norm_num [checkProfitTargets, currentProfitOf])
    (by norm_num) rfl

/-! ## Claim C5 -/

/-- Claim C5 / code bug: the monitoring tick never ratchets the stop price.
A position created by `setProfitTargets` with entry 100, potential 600 and a
30 % stop (stop price 70) is ticked at price 1000 with every sell succeeding
(all three rungs fire, the position survives): the stored stop price is still
70, whereas the specified trailing ratchet with the code's 15 % trailing
constant would demand `max(70, 1000 × (1 - 15/100)) = 850`. -/
theorem c5_stop_price_never_ratcheted :
    ((monitorTrade (fun _ => true) 0 0 1000
        ⟨⟨100, 1⟩, (setProfitTargets 100 600 30).1,
         (setProfitTargets 100 600 30).2, 0⟩).position.map
      Position.stopLoss) = some 70 ∧
    (70 : ℚ) ≠ max 70 (1000 * (1 - 15/100)) := by
  constructor
  · norm_num [monitorTrade, checkProfitTargets, checkStopLoss,
      executePartialSell, executeStopLoss, setProfitTargets, currentProfitOf]
  · rw [max_eq_right (by norm_num)]
    norm_num

/-! ## Claim C6 -/

/-- Claim C6, counterexample.  A position opened at time 0 with the ladder
and 30 % stop of `setProfitTargets` (entry 100, stop 70) is ticked at
wall-clock time 10^6 — far beyond the code's own `maxHoldTime` constant of
3600 seconds — at price 100 (no rung threshold met, price above the stop):
the tick issues no sell at all and leaves the position open and unchanged,
instead of forcing the claimed full liquidation. -/
theorem c6_expired_hold_not_liquidated :
    3600 < 10 ^ 6 -
      (⟨⟨100, 1⟩, (setProfitTargets 100 600 30).1,
        (setProfitTargets 100 600 30).2, 0⟩ : Position).openedAt ∧
    monitorTrade (fun _ => true) 0 (10 ^ 6) 100
        ⟨⟨100, 1⟩, (setProfitTargets 100 600 30).1,
         (setProfitTargets 100 600 30).2, 0⟩ =
      ⟨0, some ⟨⟨100, 1⟩, (setProfitTargets 100 600 30).1,
        (setProfitTargets 100 600 30).2, 0⟩, []⟩ := by
  constructor
  · norm_num
  · norm_num [monitorTrade, checkProfitTargets, checkStopLoss,
      executePartialSell, executeStopLoss, setProfitTargets, currentProfitOf]

/-- Claim C6, amended: the monitoring tick performs no time-based exit at
all.  Its outcome is independent of the wall-clock time of the tick and of
the position's opening time: however long a position has been held, only the
price-driven rules (profit ladder, stop price) can liquidate it. -/
theorem c6_amended_monitor_ignores_time (sellOk : ℕ → Bool) (k now now' : ℕ)
    (price : ℚ) (trade : Trade) (targets : List Target) (stopLoss : ℚ)
    (t t' : ℕ) :
    monitorTrade sellOk k now price ⟨trade, targets, stopLoss, t⟩ =
      monitorTrade sellOk k now' price ⟨trade, targets, stopLoss, t⟩ ∧
    (monitorTrade sellOk k now price ⟨trade, targets, stopLoss, t⟩).sells =
      (monitorTrade sellOk k now price ⟨trade, targets, stopLoss, t'⟩).sells ∧
    (monitorTrade sellOk k now price
        ⟨trade, targets, stopLoss, t⟩).position.isSome =
      (monitorTrade sellOk k now price
        ⟨trade, targets, stopLoss, t'⟩).position.isSome := by
  refine ⟨rfl, ?_, ?_⟩ <;>
  · simp only [monitorTrade]
    cases (checkStopLoss sellOk
        (checkProfitTargets sellOk k trade
          (currentProfitOf trade.entryPrice price) targets).k
        (checkProfitTargets sellOk k trade
          (currentProfitOf trade.entryPrice price) targets).trade
        stopLoss price).trade <;>
      simp

/-! ## Claim C7 -/

/-- Claim C7, counterexample.  The Scenario C assessment — risk 20,
profit potential 600, verified (not audited), liquidity 100 against a
configured minimum of 50 — satisfies all four conditions of the claim, yet
with a sentiment score of 50 the decision is `false`: the code contains a
fifth guard, `sentiment.score < 60`, that the claim omits. -/
theorem c7_low_sentiment_rejected_despite_four_conditions :
    makeTradingDecision 50 ⟨true, false, 100⟩ ⟨50⟩ 20 600 = false ∧
    ¬(70 < (20 : ℚ)) ∧ ¬((600 : ℚ) < 200) ∧
    (⟨true, false, 100⟩ : Analysis).isVerified = true ∧
    ¬((100 : ℚ) < 50) := by
  refine ⟨?_, by norm_num, by norm_num, rfl, by norm_num⟩
  norm_num [makeTradingDecision]

/-- Claim C7, amended: the decision is `trade = true` exactly when all FIVE
conditions hold: risk at most 70, profit potential at least 200, sentiment
score at least 60, contract verified or audited, and liquidity at least the
configured minimum.  (The claim's four conditions plus the sentiment guard of
the code.) -/
theorem c7_amended_decision_iff (minLiquidity : ℚ) (analysis : Analysis)
    (sentiment : SentimentResult) (riskScore profitPotential : ℚ) :
    makeTradingDecision minLiquidity analysis sentiment riskScore
        profitPotential = true ↔
      riskScore ≤ 70 ∧ 200 ≤ profitPotential ∧ 60 ≤ sentiment.score ∧
        (analysis.isVerified = true ∨ analysis.isAudited = true) ∧
        minLiquidity ≤ analysis.liquidity := by
  unfold makeTradingDecision
  split_ifs with h1 h2 h3 h4 h5 <;>
    cases hv : analysis.isVerified <;> cases ha : analysis.isAudited <;>
      simp_all [not_lt]

/-! ## Claim C8 -/

/-- Claim C8, counterexample.  With base (minimum) size 10, maximum size 100,
profit potential 100 and risk 60, the computed size is `10 × 0.8 = 8`, which
is strictly below the configured minimum size 10: the result is clamped only
from above (`Math.min` with the maximum), never up to the minimum. -/
theorem c8_size_below_minimum :
    calculatePositionSize 10 100 100 60 = 8 ∧ (8 : ℚ) < 10 := by
  constructor
  · norm_num [calculatePositionSize]
  · norm_num

/-- Claim C8, amended: the size is the base size scaled by the tier
multipliers (×1.5 for potential > 500, additionally ×2 for potential > 1000,
×1.2 for risk < 30, ×0.8 for risk > 50) and clamped from ABOVE to the maximum
size only.  Whenever risk ≤ 50 the result does stay at or above the base
(minimum) size, but for risk > 50 and potential ≤ 500 it equals
`min(0.8 × base, max)`, falling below the configured minimum. -/
theorem c8_amended_clamped_above_only (baseSize maxSize profitPotential
    risk : ℚ) (hbase : 0 ≤ baseSize) (hmax : baseSize ≤ maxSize) :
    calculatePositionSize baseSize maxSize profitPotential risk ≤ maxSize ∧
    (¬50 < risk →
      baseSize ≤ calculatePositionSize baseSize maxSize profitPotential risk) ∧
    (50 < risk → profitPotential ≤ 500 →
      calculatePositionSize baseSize maxSize profitPotential risk =
        min (baseSize * (4/5)) maxSize) := by
  refine ⟨?_, ?_, ?_⟩
  · simp only [calculatePositionSize]
    split_ifs <;> exact min_le_right _ _
  · intro hr
    simp only [calculatePositionSize, if_neg hr]
    split_ifs <;> refine le_min (by nlinarith) hmax
  · intro hr hp
    have h1 : ¬500 < profitPotential := by linarith
    have h2 : ¬1000 < profitPotential := by linarith
    have h3 : ¬risk < 30 := by linarith
    simp only [calculatePositionSize, if_neg h1, if_neg h2, if_neg h3,
      if_pos hr]

/-- Witness for `c8_amended_clamped_above_only` at base 10, max 100,
potential 100, risk 60 (the configuration of the counterexample). -/
theorem c8_amended_witness :
    (0 : ℚ) ≤ 10 ∧ (10 : ℚ) ≤ 100 ∧
    (calculatePositionSize 10 100 100 60 ≤ 100 ∧
     (¬(50 : ℚ) < 60 → (10 : ℚ) ≤ calculatePositionSize 10 100 100 60) ∧
     ((50 : ℚ) < 60 → (100 : ℚ) ≤ 500 →
       calculatePositionSize 10 100 100 60 = min (10 * (4/5)) 100)) :=
  ⟨by norm_num, by norm_num,
   c8_amended_clamped_above_only 10 100 100 60 (by norm_num) (by norm_num)⟩

/-! ## Claim C9 -/

/-- Claim C9, counterexample.  With `maxConcurrentTrades = 2` and two entries
already pending, submitting a third promising candidate does NOT reject: the
entry is pushed (the queue grows to length 3) and only the immediate
processing trigger is suppressed.  There is no `AT_CAPACITY` path before the
push. -/
theorem c9_third_submission_enqueued_at_capacity :
    analyzeAndQueueToken 2 [⟨1, 0, 0, 80⟩, ⟨2, 0, 1, 75⟩] ⟨3, 0, 2, 90⟩
        true =
      ([⟨1, 0, 0, 80⟩, ⟨2, 0, 1, 75⟩, ⟨3, 0, 2, 90⟩], false) ∧
    ([⟨1, 0, 0, 80⟩, ⟨2, 0, 1, 75⟩, ⟨3, 0, 2, 90⟩] :
        List QueueEntry).length = 3 := by
  constructor
  · simp [analyzeAndQueueToken, queueDuplicate]
  · rfl

/-- Claim C9, amended: submission never rejects for capacity.  A promising
candidate arriving while the pending count is already at or above
`maxConcurrentTrades` is still appended to the queue (which is unbounded);
the capacity bound only suppresses the immediate `processTokenQueue` trigger,
returned here as the second component. -/
theorem c9_amended_no_capacity_rejection (maxConcurrentTrades : ℕ)
    (queue : List QueueEntry) (entry : QueueEntry)
    (hfull : maxConcurrentTrades ≤ queue.length) :
    analyzeAndQueueToken maxConcurrentTrades queue entry true =
      (queue ++ [entry], false) := by
  have hlen : ¬(queue ++ [entry]).length ≤ maxConcurrentTrades := by
    rw [List.length_append]
    simp only [List.length_singleton]
    omega
  simp [analyzeAndQueueToken, queueDuplicate, hlen]
  omega

/-- Witness for `c9_amended_no_capacity_rejection` with capacity 2 and two
pending entries. -/
theorem c9_amended_witness :
    2 ≤ ([⟨1, 0, 0, 80⟩, ⟨2, 0, 1, 75⟩] : List QueueEntry).length ∧
    analyzeAndQueueToken 2 [⟨1, 0, 0, 80⟩, ⟨2, 0, 1, 75⟩] ⟨3, 0, 2, 90⟩
        true =
      ([⟨1, 0, 0, 80⟩, ⟨2, 0, 1, 75⟩] ++ [⟨3, 0, 2, 90⟩], false) :=
  ⟨by norm_num,
   c9_amended_no_capacity_rejection 2 [⟨1, 0, 0, 80⟩, ⟨2, 0, 1, 75⟩]
     ⟨3, 0, 2, 90⟩ (by norm_num)⟩

/-! ## Claim C10 -/

/-- Claim C10: the profit-potential calculation never returns less than the
200 (2×) baseline: it starts at 200 and only multiplies by factors of at
least 1 (2, 1.5, 1.3, 1.2) before rounding, so the decision gate's
`profitPotential < 200` rejection can never fire on this value. -/
theorem c10_profit_potential_at_least_baseline (score socialScore risk : ℚ) :
    200 ≤ calculateProfitPotential score socialScore risk := by
  unfold calculateProfitPotential
  split_ifs <;> norm_num [round_eq, Int.le_floor]

end CoinSniper
